import Mathlib

/-!
Verification development for the B2P student-onboarding dashboard
(`src/App.tsx`, `src/apis/handleFormSubmit.ts`).

The TypeScript source is shallowly embedded: pure helpers become Lean
functions on `List Char` / plain structures, the React `useState` cell
collection becomes an explicit `AppState` record, and each asynchronous
entry point (`handleSubmit`, the Razorpay completion handler, the
`ondismiss` handler) becomes a state-transition function parameterised by
an environment describing the outcomes of the external calls it awaits.
External-call invocations are recorded in an explicit trace so that
claims of the form "no gateway call happens" are statements about that
trace.  JavaScript regular expressions used by the validators are
embedded via a small executable matcher over `List Char`.
-/

namespace Onboarding

/-! ### Character classes and a small anchored regular-expression engine

The source validates email and phone with `RegExp.test` on anchored
patterns.  We embed the two patterns with an executable backtracking
matcher.  Character classes are deterministic predicates, so a bounded
repetition `p{lo,hi}` has one possible remainder per consumed length. -/

/-- ASCII approximation of the JavaScript whitespace class used in the
`[^\s@]` and `[-\s.]` character classes of the source regexes. -/
def isWS (c : Char) : Bool :=
  c == ' ' || c == '\t' || c == '\n' || c == '\r'

/-- Anchored regex fragments: bounded repetition of a character class
(`hi = none` meaning unbounded, as in `+`), an optional single-class
character (`X?`), and concatenation. -/
inductive RE where
  | rep (p : Char → Bool) (lo : Nat) (hi : Option Nat)
  | opt (p : Char → Bool)
  | seq (a b : RE)

/-- Length of the maximal prefix of `l` whose characters satisfy `p`. -/
def runLen (p : Char → Bool) : List Char → Nat
  | [] => 0
  | c :: cs => if p c then runLen p cs + 1 else 0

/-- All possible remainders of `l` after matching the fragment `r`
against a prefix of `l`. -/
def matchRE : RE → List Char → List (List Char)
  | .rep p lo hi, l =>
      let run := runLen p l
      let top := match hi with
        | none => run
        | some h => min h run
      if lo ≤ top then
        (List.range (top + 1 - lo)).map (fun k => l.drop (lo + k))
      else []
  | .opt p, l =>
      l :: (match l with
        | [] => []
        | c :: cs => if p c then [cs] else [])
  | .seq a b, l => (matchRE a l).flatMap (fun l2 => matchRE b l2)

/-- `re.test(s)` for an anchored pattern `^...$`: some match consumes
the whole input. -/
def reTest (r : RE) (l : List Char) : Bool :=
  (matchRE r l).any (fun l2 => l2.isEmpty)

/-- The class `[^\s@]`. -/
def notWsAt (c : Char) : Bool := !(isWS c || c == '@')

/-- The class `[0-9]`. -/
def isDigit09 (c : Char) : Bool := 48 ≤ c.toNat && c.toNat ≤ 57

/-- The class `[-\s.]`. -/
def isPhoneSep (c : Char) : Bool := c == '-' || isWS c || c == '.'

/-- `/^[^\s@]+@[^\s@]+\.[^\s@]+$/` from `validateEmail` in `App.tsx`. -/
def emailRE : RE :=
  .seq (.rep notWsAt 1 none)
    (.seq (.rep (fun c => c == '@') 1 (some 1))
      (.seq (.rep notWsAt 1 none)
        (.seq (.rep (fun c => c == '.') 1 (some 1))
          (.rep notWsAt 1 none))))

/-- `validateEmail` from `App.tsx`. -/
def validateEmail (email : String) : Bool :=
  reTest emailRE email.data

/-- `/^[+]?[(]?[0-9]{1,4}[)]?[-\s.]?[0-9]{1,4}[-\s.]?[0-9]{1,9}$/` from
`validatePhone` in `App.tsx`. -/
def phoneRE : RE :=
  .seq (.opt (fun c => c == '+'))
    (.seq (.opt (fun c => c == '('))
      (.seq (.rep isDigit09 1 (some 4))
        (.seq (.opt (fun c => c == ')'))
          (.seq (.opt isPhoneSep)
            (.seq (.rep isDigit09 1 (some 4))
              (.seq (.opt isPhoneSep)
                (.rep isDigit09 1 (some 9))))))))

/-- `validatePhone` from `App.tsx`. -/
def validatePhone (phone : String) : Bool :=
  reTest phoneRE phone.data

/-! ### Dates and the date-of-birth validator -/

/-- A calendar date as the `(getFullYear, getMonth, getDate)` triple the
source reads off a JavaScript `Date`.  Only differences of the fields
matter to the age arithmetic, so the 0-based/1-based month convention is
irrelevant as long as it is used consistently.  Timezone effects of
JavaScript date parsing are not modelled: dates are plain triples. -/
structure SimpleDate where
  year : Int
  month : Int
  day : Int
deriving DecidableEq

/-- Digit-string value; `none` when empty or containing a non-digit. -/
def digitsVal : List Char → Option Nat
  | [] => none
  | l =>
      l.foldl
        (fun acc c =>
          match acc with
          | none => none
          | some n => if isDigit09 c then some (n * 10 + (c.toNat - 48)) else none)
        (some 0)

/-- Split a character list on a separator character. -/
def splitOnChar (sep : Char) : List Char → List (List Char)
  | [] => [[]]
  | c :: cs =>
      let r := splitOnChar sep cs
      if c == sep then [] :: r
      else
        match r with
        | [] => [[c]]
        | h :: t => (c :: h) :: t

/-- Parse a `YYYY-MM-DD` date string, the shape produced by the
`type="date"` input the source feeds to `new Date(dob)`.  An unparseable
string gives `none`, matching the JavaScript behaviour that an invalid
date makes the age comparison `NaN >= 5` false. -/
def parseDate (s : String) : Option SimpleDate :=
  match splitOnChar '-' s.data with
  | [y, m, d] =>
      match digitsVal y, digitsVal m, digitsVal d with
      | some yy, some mm, some dd => some ⟨(yy : Int), (mm : Int), (dd : Int)⟩
      | _, _, _ => none
  | _ => none

/-- `validateDateOfBirth` from `App.tsx`: whole-year age relative to
`today`, decremented when the birthday has not yet been reached this
year, accepted exactly when `5 ≤ age ≤ 25`. -/
def validateDateOfBirth (today : SimpleDate) (dob : String) : Bool :=
  match parseDate dob with
  | none => false
  | some birthDate =>
      let age0 : Int := today.year - birthDate.year
      let monthDiff : Int := today.month - birthDate.month
      let age : Int :=
        if monthDiff < 0 ∨ (monthDiff = 0 ∧ today.day < birthDate.day) then age0 - 1 else age0
      decide (5 ≤ age ∧ age ≤ 25)

/-! ### Data model

The `useState` cells of the `App` component that participate in the
commit protocol become the fields of `AppState`; presentation-only cells
(`copiedEmail`, `copiedPassword`, `openSelect`) are omitted. -/

/-- The `FormData` record of `App.tsx` (the ApplicantRecord). -/
structure FormData where
  firstName : String
  lastName : String
  dateOfBirth : String
  gender : String
  email : String
  phone : String
  address : String
  grade : String
  previousSchool : String
  parentName : String
  parentEmail : String
  parentPhone : String
  relationship : String
  subjects : List String
  hobbies : String
  goals : String
  password : String
  course : String
deriving DecidableEq

/-- The `FormErrors` object, as an association list in insertion order;
a key is present exactly when the field is currently invalid. -/
abbrev FormErrors := List (String × String)

/-- The object-spread update `{...prev, email: msg}`: replace the value
at a key, appending the key when absent. -/
def setError (errs : FormErrors) (k v : String) : FormErrors :=
  errs.filter (fun p => p.1 ≠ k) ++ [(k, v)]

/-- The orchestrator state: the `useState` cells of `App` that the
commit protocol reads or writes. -/
structure AppState where
  currentStep : Nat
  showSuccessModal : Bool
  generatedPassword : String
  onLoad : Bool
  errors : FormErrors
  touched : List String
  paymentCompleted : Bool
  formData : FormData
deriving DecidableEq

/-! ### Step validation -/

/-- JavaScript `String.prototype.trim` (ASCII whitespace). -/
def trimChars (l : List Char) : List Char :=
  ((l.dropWhile isWS).reverse.dropWhile isWS).reverse

/-- The fresh error map `newErrors` computed by `validateStep` in
`App.tsx` for one step, in the source's insertion order.  Steps other
than 0–3 fall through every branch and give the empty map. -/
def stepErrors (today : SimpleDate) (step : Nat) (fd : FormData) : FormErrors :=
  if step = 0 then
    (if trimChars fd.firstName.data = [] then [(("firstName"), ("First name is required"))] else [])
    ++ (if trimChars fd.lastName.data = [] then [(("lastName"), ("Last name is required"))] else [])
    ++ (if fd.dateOfBirth = "" then
          [(("dateOfBirth"), ("Date of birth is required"))]
        else if validateDateOfBirth today fd.dateOfBirth = false then
          [(("dateOfBirth"), ("Please enter a valid date of birth (age 5-25)"))]
        else [])
  else if step = 1 then
    (if fd.email = "" then
        [(("email"), ("Email is required"))]
      else if validateEmail fd.email = false then
        [(("email"), ("Please enter a valid email address"))]
      else [])
    ++ (if fd.phone ≠ "" ∧ validatePhone fd.phone = false then
          [(("phone"), ("Please enter a valid phone number"))]
        else [])
  else if step = 2 then
    (if fd.grade = "" then [(("grade"), ("Grade is required"))] else [])
  else if step = 3 then
    (if trimChars fd.parentName.data = [] then [(("parentName"), ("Parent/Guardian name is required"))] else [])
    ++ (if fd.parentEmail = "" then
          [(("parentEmail"), ("Parent email is required"))]
        else if validateEmail fd.parentEmail = false then
          [(("parentEmail"), ("Please enter a valid email address"))]
        else [])
    ++ (if fd.parentPhone = "" then
          [(("parentPhone"), ("Parent phone number is required"))]
        else if validatePhone fd.parentPhone = false then
          [(("parentPhone"), ("Please enter a valid phone number"))]
        else [])
  else []

/-- `validateStep` from `App.tsx` as a state transition: computes the
fresh map for the step, stores it with `setErrors(newErrors)` (replacing
the previous map wholesale), and returns whether the fresh map is
empty. -/
def validateStep (today : SimpleDate) (step : Nat) (s : AppState) : AppState × Bool :=
  let newErrors := stepErrors today step s.formData
  ({ s with errors := newErrors }, newErrors = ([] : FormErrors))

/-- The `for (let i = 0; i < steps.length; i++)` validation loop of
`handleSubmit`, unrolled over the six concrete steps of the wizard:
index of the first step whose fresh error map is non-empty. -/
def firstInvalidStep (today : SimpleDate) (fd : FormData) : Option Nat :=
  if stepErrors today 0 fd ≠ [] then some 0
  else if stepErrors today 1 fd ≠ [] then some 1
  else if stepErrors today 2 fd ≠ [] then some 2
  else if stepErrors today 3 fd ≠ [] then some 3
  else if stepErrors today 4 fd ≠ [] then some 4
  else if stepErrors today 5 fd ≠ [] then some 5
  else none

/-! ### Payment gateway and committer data -/

/-- `RazorpayOrder` from `App.tsx`. -/
structure RazorpayOrder where
  id : String
  amount : Int
  currency : String
  receipt : Option String
deriving DecidableEq

/-- `PaymentData` / `RazorpayResponse`: the receipt handed to the
completion handler. -/
structure PaymentData where
  razorpay_order_id : String
  razorpay_payment_id : String
  razorpay_signature : String
deriving DecidableEq

/-- `PaymentVerificationResult` from `App.tsx`. -/
structure PaymentVerificationResult where
  success : Bool
  message : String
  orderId : Option String
  paymentId : Option String
deriving DecidableEq

/-- The prefill block of the checkout configuration. -/
structure CustomerInfo where
  name : String
  email : String
  contact : String
deriving DecidableEq

/-- `RazorpayOptions` from `App.tsx` (the data fields; the two callbacks
are modelled as the separate transitions `razorpayHandler` and
`razorpayOndismiss`). -/
structure RazorpayOptions where
  key : String
  amount : Int
  currency : String
  name : String
  description : String
  order_id : String
  prefill : CustomerInfo
  themeColor : String
deriving DecidableEq

/-- The `options` object built by `handleSubmit` (App.tsx lines
298–348): every field other than the gateway key and the order data is
a literal constant; nothing is read from the applicant record. -/
def mkRazorpayOptions (key : String) (order : RazorpayOrder) : RazorpayOptions :=
  { key := key
    amount := order.amount
    currency := order.currency
    name := ("B2P TEACHERS")
    description := ("100 Days Payment Plan")
    order_id := order.id
    prefill :=
      { name := ("chiranjeevi")
        email := ("test@b2p.com")
        contact := ("1234566778909") }
    themeColor := ("#3b82f6") }

/-- The notes block of the `/payments/make-payment` request body. -/
structure OrderNotes where
  customer_name : String
  customer_email : String
deriving DecidableEq

/-- The `/payments/make-payment` request body built by `createOrder` in
`HandlePayments`. -/
structure MakePaymentBody where
  amount : Option Int
  currency : String
  receipt : String
  notes : OrderNotes
deriving DecidableEq

/-- The request body of `createOrder(amount)` from `HandlePayments`:
the amount parameter is forwarded verbatim (`none` models the
`undefined` produced when the caller passes no argument), the currency
and the customer notes are literal constants, and the receipt string is
derived from `Date.now()`. -/
def createOrderBody (amount : Option Int) (now : Int) : MakePaymentBody :=
  { amount := amount
    currency := ("INR")
    receipt := ("receipt_") ++ toString now
    notes :=
      { customer_name := ("chiranjeevi")
        customer_email := ("test@b2p.com") } }

/-! ### The Submission Committer (`handleFormSubmit.ts`) -/

/-- `{status, statusCode}`, the resolved value of `handleFormSubmit`. -/
structure SubmitResponse where
  status : Bool
  statusCode : Option Nat
deriving DecidableEq

/-- The possible outcomes of the `axios.post` call awaited by
`handleFormSubmit`: a resolved response carrying its HTTP status (axios
resolves only for 2xx statuses under its default `validateStatus`), a
rejected `AxiosError` carrying the optional `error.response.status`, a
thrown non-axios `Error`, or a thrown non-`Error` value. -/
inductive AxiosResult where
  | resolved (status : Nat)
  | axiosError (status : Option Nat)
  | jsError (msg : String)
  | otherThrow (repr : String)
deriving DecidableEq

/-- The value `handleFormSubmit` resolves to, together with the alerts
it shows: `result = none` models the implicit `undefined` return. -/
structure CommitEffect where
  result : Option SubmitResponse
  alerts : List String
deriving DecidableEq

/-- `handleFormSubmit` from `handleFormSubmit.ts` as a function of the
axios outcome.  Every path is inside the `try`/`catch`, so the promise
always resolves: to `{status: true, statusCode}` on a resolved post, to
`{status: false, statusCode: error.response?.status}` on an
`AxiosError`, and to `undefined` (after an `alert`) when a non-axios
value was thrown. -/
def handleFormSubmit (ax : AxiosResult) : CommitEffect :=
  match ax with
  | .resolved status => { result := some { status := true, statusCode := some status }, alerts := [] }
  | .axiosError status => { result := some { status := false, statusCode := status }, alerts := [] }
  | .jsError msg => { result := none, alerts := [msg] }
  | .otherThrow r => { result := none, alerts := [r] }

/-! ### The Onboarding Orchestrator (`handleSubmit` and the widget
callbacks) -/

/-- One recorded invocation of an external operation. -/
inductive ApiCall where
  | fetchRazorpayKey
  | loadRazorpayScript
  | createOrder (amount : Option Int)
  | openWidget (options : RazorpayOptions)
  | verifyPayment (receipt : PaymentData)
  | commit (record : FormData)
deriving DecidableEq

/-- Environment for one `handleSubmit` run: the outcomes of the
external calls it may await.  `key = none` models `fetchRazorpayKey`
resolving `undefined` after its internal `catch`; `orderResult` is the
resolution or rejection of `createOrder`; `password` is the output of
`generatePassword()` (a random source, hence an input here);
`commitAxios` is the axios outcome should the run reach the direct
commit branch. -/
structure Env where
  key : Option String
  scriptLoaded : Bool
  orderResult : Except String RazorpayOrder
  password : String
  commitAxios : AxiosResult

/-- The observable result of one synchronous run of an entry point:
the state left behind, the external calls made (in order), and the
blocking alerts shown. -/
structure SubmitResult where
  state : AppState
  calls : List ApiCall
  alerts : List String
deriving DecidableEq

/-- `handleSubmit` from `App.tsx` (lines 265–374), up to its own return
or thrown-and-caught exception.  Notes tied to the source:
* the validation loop runs before `setOnload(true)`, so an invalid
  record leaves the busy flag untouched and makes no external call;
* when every step validates, the last `validateStep(5)` call has set
  `errors` to the (empty) step-5 map;
* the `finally { setOnload(false) }` block runs on every path out of
  the `try`, including the early `return` after `razorpay.open()`;
* `createOrder` is invoked with no argument (line 296), recorded as
  `createOrder none`;
* in the `paymentCompleted` branch the source checks
  `response?.status` and then `response?.statusCode === 409`; an
  `undefined` response fails both checks. -/
def handleSubmit (today : SimpleDate) (env : Env) (s : AppState) : SubmitResult :=
  match firstInvalidStep today s.formData with
  | some i =>
      { state := { s with currentStep := i, errors := stepErrors today i s.formData }
        calls := []
        alerts := [] }
  | none =>
      let s1 : AppState :=
        { s with errors := stepErrors today 5 s.formData
                 onLoad := true
                 generatedPassword := env.password }
      let finalData : FormData := { s.formData with password := env.password }
      if s1.paymentCompleted = false then
        let calls0 : List ApiCall := [.fetchRazorpayKey, .loadRazorpayScript]
        if env.scriptLoaded = false then
          { state := { s1 with onLoad := false }
            calls := calls0
            alerts := [("Error Loading RazorPay Script")] }
        else
          match env.key with
          | some k =>
              match env.orderResult with
              | .error _ =>
                  { state := { s1 with onLoad := false }
                    calls := calls0 ++ [.createOrder none]
                    alerts := [] }
              | .ok order =>
                  { state := { s1 with onLoad := false }
                    calls := calls0 ++ [.createOrder none, .openWidget (mkRazorpayOptions k order)]
                    alerts := [] }
          | none =>
              { state := { s1 with onLoad := false }
                calls := calls0
                alerts := [] }
      else
        let eff := handleFormSubmit env.commitAxios
        let s2 : AppState :=
          match eff.result with
          | some r =>
              if r.status then
                { s1 with showSuccessModal := true, paymentCompleted := false }
              else if r.statusCode = some 409 then
                { s1 with errors := setError s1.errors ("email") ("This email is already registered")
                          currentStep := 1 }
              else s1
          | none => s1
        { state := { s2 with onLoad := false }
          calls := [.commit finalData]
          alerts := eff.alerts }

/-- Environment for one run of the checkout completion handler: the
resolution or rejection of `verifyPayment` and the axios outcome of the
commit it performs. -/
structure HandlerEnv where
  verifyResult : Except String PaymentVerificationResult
  commitAxios : AxiosResult

/-- The `handler` callback of the checkout configuration (App.tsx lines
305–330).  The source guards the commit with `if (verificationResult)`,
a truthiness test on the whole result object — the `success` field is
never consulted — so every resolved verification takes the commit
branch; only a rejected `verifyPayment` (the `.error` case, an
unhandled rejection inside the async handler) leaves the state
untouched. -/
def razorpayHandler (henv : HandlerEnv) (response : PaymentData) (finalData : FormData)
    (s : AppState) : SubmitResult :=
  match henv.verifyResult with
  | .error _ =>
      { state := s
        calls := [.verifyPayment response]
        alerts := [] }
  | .ok _verificationResult =>
      let s1 : AppState := { s with paymentCompleted := true }
      let eff := handleFormSubmit henv.commitAxios
      let s2 : AppState :=
        match eff.result with
        | some r =>
            if r.status then
              { s1 with showSuccessModal := true }
            else if r.statusCode = some 409 then
              { s1 with errors := setError s1.errors ("email") ("This email is already registered")
                        currentStep := 1 }
            else s1
        | none => s1
      { state := { s2 with onLoad := false }
        calls := [.verifyPayment response, .commit finalData]
        alerts := eff.alerts }

/-- The `modal.ondismiss` callback (App.tsx lines 339–347): logs the
cancellation and clears the busy flag; nothing else is touched and no
external call is made. -/
def razorpayOndismiss (s : AppState) : SubmitResult :=
  { state := { s with onLoad := false }
    calls := []
    alerts := [] }

/-! ### Concrete sample data used by concrete evaluations -/

/-- A fixed current date used to make the date validator concrete. -/
def today0 : SimpleDate := ⟨2026, 10, 11⟩

/-- A record passing every step's validation relative to `today0`. -/
def validForm : FormData :=
  { firstName := "John"
    lastName := "Doe"
    dateOfBirth := "2010-05-05"
    gender := ""
    email := "john@b2p.com"
    phone := ""
    address := ""
    grade := "10"
    previousSchool := ""
    parentName := "Jane Doe"
    parentEmail := "jane@b2p.com"
    parentPhone := "1234567890"
    relationship := ""
    subjects := []
    hobbies := ""
    goals := ""
    password := ""
    course := "" }

/-- The all-empty initial record of the component. -/
def emptyForm : FormData :=
  { firstName := ""
    lastName := ""
    dateOfBirth := ""
    gender := ""
    email := ""
    phone := ""
    address := ""
    grade := ""
    previousSchool := ""
    parentName := ""
    parentEmail := ""
    parentPhone := ""
    relationship := ""
    subjects := []
    hobbies := ""
    goals := ""
    password := ""
    course := "" }

/-- A state on the final wizard step holding record `fd`, with the
payment flag set to `flag`. -/
def mkState (fd : FormData) (flag : Bool) : AppState :=
  { currentStep := 5
    showSuccessModal := false
    generatedPassword := ""
    onLoad := false
    errors := []
    touched := []
    paymentCompleted := flag
    formData := fd }

/-- A sample order as resolved by `createOrder`. -/
def order0 : RazorpayOrder :=
  { id := "order_1", amount := 100, currency := "INR", receipt := none }

/-- A sample receipt handed to the completion handler. -/
def receipt0 : PaymentData :=
  { razorpay_order_id := "order_1"
    razorpay_payment_id := "pay_1"
    razorpay_signature := "sig_1" }

/-- `validForm` with the generated password attached, as submitted. -/
def finalForm0 : FormData := { validForm with password := "pw" }

/-- An environment in which every gateway call succeeds and the commit
resolves with HTTP 200. -/
def envPaid : Env :=
  { key := some ("rzp_key")
    scriptLoaded := true
    orderResult := Except.ok order0
    password := "pw"
    commitAxios := AxiosResult.resolved 200 }

/-! ## Claim theorems -/

/-- C7 counterexample: the claim asserts that an applicant 1 day past
25 years (born 25 years and one day before today) fails, but the
validator computes whole-year age 25 for a birth date of 2001-10-10
relative to 2026-10-11 and accepts it. -/
theorem dob_one_day_past_25_passes :
    validateDateOfBirth ⟨2026, 10, 11⟩ ("2001-10-10") = true := by decide

/-- C7 (amended): the date-of-birth validator floors the age and
accepts whole-year ages 5 through 25: born exactly 5 years ago today
passes, one day short of 5 years fails, exactly 25 years ago today
passes, one day past 25 years still passes, and rejection begins at the
26th birthday. -/
theorem dob_boundary_behaviour :
    validateDateOfBirth ⟨2026, 10, 11⟩ ("2021-10-11") = true ∧
    validateDateOfBirth ⟨2026, 10, 11⟩ ("2021-10-12") = false ∧
    validateDateOfBirth ⟨2026, 10, 11⟩ ("2001-10-11") = true ∧
    validateDateOfBirth ⟨2026, 10, 11⟩ ("2001-10-10") = true ∧
    validateDateOfBirth ⟨2026, 10, 11⟩ ("2000-10-11") = false := by decide

/-- C5 counterexample: when the account-creation call fails with a
non-axios `Error`, the committer alerts and resolves `undefined`, not a
typed outcome. -/
theorem committer_undefined_on_nonaxios_error :
    (handleFormSubmit (AxiosResult.jsError ("Request failed"))).result = none := by decide

/-- C5 (amended): the committer never throws uncaught — every axios
outcome resolves to a value — and it classifies a resolved (2xx) post
as `{status: true}` and an `AxiosError` as `{status: false}` carrying
the HTTP status code (409 identifying the duplicate email); but a
non-axios throwable resolves to `undefined` after an alert rather than
to a typed outcome. -/
theorem committer_classification (ax : AxiosResult) :
    (∀ st, ax = AxiosResult.resolved st →
      handleFormSubmit ax = ⟨some ⟨true, some st⟩, []⟩) ∧
    (∀ st, ax = AxiosResult.axiosError st →
      handleFormSubmit ax = ⟨some ⟨false, st⟩, []⟩) ∧
    (∀ m, ax = AxiosResult.jsError m → handleFormSubmit ax = ⟨none, [m]⟩) ∧
    (∀ r, ax = AxiosResult.otherThrow r → handleFormSubmit ax = ⟨none, [r]⟩) := by
  refine ⟨?_, ?_, ?_, ?_⟩ <;> rintro x rfl <;> rfl

/-- C5 witness: the amended classification applied to a 409 axios
error. -/
theorem committer_classification_witness :
    handleFormSubmit (AxiosResult.axiosError (some 409)) = ⟨some ⟨false, some 409⟩, []⟩ :=
  (committer_classification (AxiosResult.axiosError (some 409))).2.1 (some 409) rfl

/-- C2 (code evaluated at the failing input): a verification result
with `success = false` still takes the commit branch — the handler
tests only the truthiness of the result object, never its `success`
field — so `paymentCompleted` is set and the account-creation call is
made, contradicting the specified TransportFailure treatment. -/
theorem handler_commits_on_failed_verification :
    (razorpayHandler
        ⟨Except.ok ⟨false, ("Invalid signature"), none, none⟩, AxiosResult.resolved 200⟩
        receipt0 finalForm0 (mkState validForm false)).state.paymentCompleted = true ∧
    ApiCall.commit finalForm0 ∈
      (razorpayHandler
        ⟨Except.ok ⟨false, ("Invalid signature"), none, none⟩, AxiosResult.resolved 200⟩
        receipt0 finalForm0 (mkState validForm false)).calls := by decide

/-- C10: the dismissal handler clears only the busy indicator — the
payment flag (false while the widget is open), the current step, the
errors, the modal, the record, the password and the touched set are all
unchanged, and no external call is made. -/
theorem ondismiss_clears_only_busy (s : AppState) (h : s.paymentCompleted = false) :
    (razorpayOndismiss s).state.onLoad = false ∧
    (razorpayOndismiss s).state.paymentCompleted = false ∧
    (razorpayOndismiss s).state.currentStep = s.currentStep ∧
    (razorpayOndismiss s).state.errors = s.errors ∧
    (razorpayOndismiss s).state.showSuccessModal = s.showSuccessModal ∧
    (razorpayOndismiss s).state.formData = s.formData ∧
    (razorpayOndismiss s).state.generatedPassword = s.generatedPassword ∧
    (razorpayOndismiss s).state.touched = s.touched ∧
    (razorpayOndismiss s).calls = [] := by
  refine ⟨rfl, ?_, rfl, rfl, rfl, rfl, rfl, rfl, rfl⟩
  simpa [razorpayOndismiss] using h

/-- C10 witness: the dismissal frame property at a concrete state. -/
theorem ondismiss_clears_only_busy_witness :
    (razorpayOndismiss (mkState validForm false)).state.paymentCompleted = false ∧
    (razorpayOndismiss (mkState validForm false)).calls = [] :=
  ⟨(ondismiss_clears_only_busy (mkState validForm false) rfl).2.1,
   (ondismiss_clears_only_busy (mkState validForm false) rfl).2.2.2.2.2.2.2.2⟩

/-- C9: step validation stores exactly the freshly computed map
(discarding the previous map, whatever it was), reports success exactly
when that map is empty, and the steps without mandatory fields
(interests = 4, payment plan = 5) always produce the empty map. -/
theorem validateStep_replaces_errors (today : SimpleDate) (step : Nat) (s : AppState) :
    (validateStep today step s).1.errors = stepErrors today step s.formData ∧
    (∀ e, (validateStep today step { s with errors := e }).1.errors
        = (validateStep today step s).1.errors) ∧
    ((validateStep today step s).2 = true ↔ stepErrors today step s.formData = []) ∧
    (step = 4 ∨ step = 5 → stepErrors today step s.formData = []) := by
  refine ⟨rfl, fun e => rfl, ?_, ?_⟩
  · simp [validateStep]
  · rintro (rfl | rfl) <;> simp [stepErrors]

/-- C9 witness: the replacement property at the payment-plan step of a
concrete state carrying stale errors. -/
theorem validateStep_replaces_errors_witness :
    (validateStep today0 5
        { mkState validForm false with errors := [(("email"), ("stale"))] }).1.errors
      = stepErrors today0 5 validForm ∧
    stepErrors today0 5 validForm = [] :=
  ⟨(validateStep_replaces_errors today0 5
      { mkState validForm false with errors := [(("email"), ("stale"))] }).1,
   (validateStep_replaces_errors today0 5 (mkState validForm false)).2.2.2 (Or.inr rfl)⟩

/-- C1: with the payment flag set, a submit on a fully valid record
makes exactly one external call — the account-creation commit — and in
particular never calls `fetchRazorpayKey`, `loadRazorpayScript`,
`createOrder` or `verifyPayment` again; and when the commit fails with
an `AxiosError` (duplicate email or transport failure) the flag remains
set, so a further submit again skips the gateway — at most one
successful charge per session. -/
theorem submit_skips_gateway_when_payment_completed
    (today : SimpleDate) (env : Env) (s : AppState)
    (hflag : s.paymentCompleted = true)
    (hvalid : firstInvalidStep today s.formData = none) :
    (handleSubmit today env s).calls
      = [ApiCall.commit { s.formData with password := env.password }] ∧
    (∀ st, env.commitAxios = AxiosResult.axiosError st →
      (handleSubmit today env s).state.paymentCompleted = true) := by
  constructor
  · simp [handleSubmit, hvalid, hflag]
  · intro st hst
    by_cases h409 : st = some 409 <;>
      simp [handleSubmit, hvalid, hflag, hst, handleFormSubmit, h409]

/-- C1 witness: the gateway-skipping property at a concrete paid
state. -/
theorem submit_skips_gateway_witness :
    (handleSubmit today0 envPaid (mkState validForm true)).calls
      = [ApiCall.commit finalForm0] :=
  (submit_skips_gateway_when_payment_completed today0 envPaid (mkState validForm true)
    rfl (by decide)).1

/-- C3 counterexample: a first-attempt commit accepted inside the
payment completion handler shows the success modal but leaves
`paymentCompleted` true — the flag is cleared only on the retry path,
refuting the claim that it is cleared regardless of the path. -/
theorem first_attempt_success_keeps_flag :
    (razorpayHandler ⟨Except.ok ⟨true, ("ok"), none, none⟩, AxiosResult.resolved 200⟩
        receipt0 finalForm0 (mkState validForm false)).state.showSuccessModal = true ∧
    (razorpayHandler ⟨Except.ok ⟨true, ("ok"), none, none⟩, AxiosResult.resolved 200⟩
        receipt0 finalForm0 (mkState validForm false)).state.paymentCompleted = true := by
  decide

/-- C3 (amended): an Accepted (2xx) commit always enters the Succeeded
state (success modal shown), but `paymentCompleted` is cleared only on
the retry path (submit with the flag already set); on the first-attempt
path inside the payment completion handler the flag stays true after
success. -/
theorem commit_accepted_enters_succeeded
    (today : SimpleDate) (env : Env) (s : AppState) (st : Nat)
    (hflag : s.paymentCompleted = true)
    (hvalid : firstInvalidStep today s.formData = none)
    (hax : env.commitAxios = AxiosResult.resolved st) :
    ((handleSubmit today env s).state.showSuccessModal = true ∧
      (handleSubmit today env s).state.paymentCompleted = false) ∧
    (∀ (henv : HandlerEnv) (pd : PaymentData) (fd : FormData) (s2 : AppState)
        (vr : PaymentVerificationResult) (st2 : Nat),
      henv.verifyResult = Except.ok vr →
      henv.commitAxios = AxiosResult.resolved st2 →
      (razorpayHandler henv pd fd s2).state.showSuccessModal = true ∧
      (razorpayHandler henv pd fd s2).state.paymentCompleted = true) := by
  constructor
  · simp [handleSubmit, hvalid, hflag, hax, handleFormSubmit]
  · intro henv pd fd s2 vr st2 hv h2
    simp [razorpayHandler, hv, h2, handleFormSubmit]

/-- C3 amended witness: the retry path at a concrete state clears the
flag and shows the modal. -/
theorem commit_accepted_enters_succeeded_witness :
    (handleSubmit today0 envPaid (mkState validForm true)).state.showSuccessModal = true ∧
    (handleSubmit today0 envPaid (mkState validForm true)).state.paymentCompleted = false :=
  (commit_accepted_enters_succeeded today0 envPaid (mkState validForm true) 200
    rfl (by decide) rfl).1

/-- C4: a submit on a record whose first invalid step is `i` moves the
current step back to `i`, stores exactly step `i`'s fresh error map,
leaves the busy flag untouched, and makes no external call at all — in
particular no gateway operation and no commit. -/
theorem submit_aborts_on_first_invalid_step
    (today : SimpleDate) (env : Env) (s : AppState) (i : Nat)
    (hlt : i < 6)
    (hmin : ∀ j, j < i → stepErrors today j s.formData = [])
    (hbad : stepErrors today i s.formData ≠ []) :
    (handleSubmit today env s).state.currentStep = i ∧
    (handleSubmit today env s).state.errors = stepErrors today i s.formData ∧
    (handleSubmit today env s).state.onLoad = s.onLoad ∧
    (handleSubmit today env s).calls = [] := by
  have hfi : firstInvalidStep today s.formData = some i := by
    interval_cases i
    · simp [firstInvalidStep, hbad]
    · simp [firstInvalidStep, hmin 0 (by norm_num), hbad]
    · simp [firstInvalidStep, hmin 0 (by norm_num), hmin 1 (by norm_num), hbad]
    · simp [firstInvalidStep, hmin 0 (by norm_num), hmin 1 (by norm_num),
        hmin 2 (by norm_num), hbad]
    · simp [firstInvalidStep, hmin 0 (by norm_num), hmin 1 (by norm_num),
        hmin 2 (by norm_num), hmin 3 (by norm_num), hbad]
    · simp [firstInvalidStep, hmin 0 (by norm_num), hmin 1 (by norm_num),
        hmin 2 (by norm_num), hmin 3 (by norm_num), hmin 4 (by norm_num), hbad]
  simp [handleSubmit, hfi]

/-- C4 witness: submitting the empty record aborts on step 0 with no
external call. -/
theorem submit_aborts_witness :
    (handleSubmit today0 envPaid (mkState emptyForm false)).state.currentStep = 0 ∧
    (handleSubmit today0 envPaid (mkState emptyForm false)).calls = [] :=
  ⟨(submit_aborts_on_first_invalid_step today0 envPaid (mkState emptyForm false) 0
      (by norm_num) (fun j hj => absurd hj (Nat.not_lt_zero j)) (by decide)).1,
   (submit_aborts_on_first_invalid_step today0 envPaid (mkState emptyForm false) 0
      (by norm_num) (fun j hj => absurd hj (Nat.not_lt_zero j)) (by decide)).2.2.2⟩

/-- C6: on a fresh (unpaid) submit with working gateway, the external
calls are exactly key fetch, script load, `createOrder` with no amount
argument, and opening the widget with a configuration whose prefill
block is the literal constant customer — the call list and the
configuration mention nothing from the applicant record, and the order
request body carries the forwarded (absent) amount and constant
customer notes. -/
theorem order_request_is_record_independent
    (today : SimpleDate) (env : Env) (s : AppState) (k : String) (order : RazorpayOrder)
    (hflag : s.paymentCompleted = false)
    (hvalid : firstInvalidStep today s.formData = none)
    (hscript : env.scriptLoaded = true)
    (hkey : env.key = some k)
    (horder : env.orderResult = Except.ok order) :
    (handleSubmit today env s).calls
      = [ApiCall.fetchRazorpayKey, ApiCall.loadRazorpayScript, ApiCall.createOrder none,
          ApiCall.openWidget (mkRazorpayOptions k order)] ∧
    (mkRazorpayOptions k order).prefill
      = { name := ("chiranjeevi"), email := ("test@b2p.com"), contact := ("1234566778909") } ∧
    (∀ now : Int, (createOrderBody none now).amount = none ∧
      (createOrderBody none now).notes
        = { customer_name := ("chiranjeevi"), customer_email := ("test@b2p.com") }) := by
  refine ⟨?_, rfl, fun now => ⟨rfl, rfl⟩⟩
  simp [handleSubmit, hvalid, hflag, hscript, hkey, horder]

/-- C6 witness: the constant order request at a concrete valid
state. -/
theorem order_request_witness :
    (handleSubmit today0 envPaid (mkState validForm false)).calls
      = [ApiCall.fetchRazorpayKey, ApiCall.loadRazorpayScript, ApiCall.createOrder none,
          ApiCall.openWidget (mkRazorpayOptions ("rzp_key") order0)] :=
  (order_request_is_record_independent today0 envPaid (mkState validForm false)
    ("rzp_key") order0 rfl (by decide) rfl rfl rfl).1

/-- C8 counterexample: when the key fetch fails (resolving `undefined`)
but the script loads, the submission aborts silently — no alert is
shown — refuting the claim that either failure is surfaced as a
blocking alert; the busy flag is reset and no order is created. -/
theorem key_fetch_failure_aborts_silently :
    (handleSubmit today0
        { key := none, scriptLoaded := true, orderResult := Except.ok order0,
          password := "pw", commitAxios := AxiosResult.resolved 200 }
        (mkState validForm false)).alerts = [] ∧
    (handleSubmit today0
        { key := none, scriptLoaded := true, orderResult := Except.ok order0,
          password := "pw", commitAxios := AxiosResult.resolved 200 }
        (mkState validForm false)).calls
      = [ApiCall.fetchRazorpayKey, ApiCall.loadRazorpayScript] ∧
    (handleSubmit today0
        { key := none, scriptLoaded := true, orderResult := Except.ok order0,
          password := "pw", commitAxios := AxiosResult.resolved 200 }
        (mkState validForm false)).state.onLoad = false := by
  decide

/-- C8 (amended): a checkout-script load failure is surfaced as a
blocking alert and aborts the submission with the busy flag reset and
no order created; a key-fetch failure also aborts with the busy flag
reset and no order created, but silently, with no alert. -/
theorem gateway_failure_aborts
    (today : SimpleDate) (env : Env) (s : AppState)
    (hflag : s.paymentCompleted = false)
    (hvalid : firstInvalidStep today s.formData = none) :
    (env.scriptLoaded = false →
      (handleSubmit today env s).alerts = [("Error Loading RazorPay Script")] ∧
      (handleSubmit today env s).state.onLoad = false ∧
      (handleSubmit today env s).calls = [ApiCall.fetchRazorpayKey, ApiCall.loadRazorpayScript]) ∧
    (env.key = none → env.scriptLoaded = true →
      (handleSubmit today env s).alerts = [] ∧
      (handleSubmit today env s).state.onLoad = false ∧
      (handleSubmit today env s).calls = [ApiCall.fetchRazorpayKey, ApiCall.loadRazorpayScript]) := by
  constructor
  · intro hs
    simp [handleSubmit, hvalid, hflag, hs]
  · intro hk hs
    simp [handleSubmit, hvalid, hflag, hk, hs]

/-- C8 amended witness: the script-load failure path at a concrete
valid state. -/
theorem gateway_failure_aborts_witness :
    (handleSubmit today0
        { key := some ("rzp_key"), scriptLoaded := false, orderResult := Except.ok order0,
          password := "pw", commitAxios := AxiosResult.resolved 200 }
        (mkState validForm false)).alerts = [("Error Loading RazorPay Script")] :=
  ((gateway_failure_aborts today0
      { key := some ("rzp_key"), scriptLoaded := false, orderResult := Except.ok order0,
        password := "pw", commitAxios := AxiosResult.resolved 200 }
      (mkState validForm false) rfl (by decide)).1 rfl).1

end Onboarding
